import Mathlib

/-!
Shallow embedding of the Food-Bridge backend (Express + Sequelize) core:
the User/Listing data model (src/models), the two parallel auth
implementations found in src/middleware/auth.js (register/login/verify/me
handlers, the simple JWT middleware and the DB-lookup middleware), the
listing handlers of src/routes/listings.js (browse, create, claim, search)
and the profile handlers (read, update, stats).

Stateful route handlers are embedded as explicit state passing over a `DB`
record holding the user and listing tables.  External libraries (jsonwebtoken,
bcryptjs) are modelled by explicit data: a token is carried as its
verification outcome, and a bcrypt hash is a tagged value recording the cost
and the hashed plaintext, so that "hash" and "plaintext" are distinguishable
states of the stored password.
-/

namespace FoodBridge

/-- Models a password value at rest.  `plain s` is the submitted plaintext;
`hashed cost s` is the bcrypt hash of `s` with the given work factor
(bcryptjs keeps hash and plaintext distinguishable one-way values). -/
inductive PasswordValue where
  | plain (s : String)
  | hashed (cost : Nat) (s : String)
deriving DecidableEq, Repr

/-- Models bcrypt.hash(s, cost) from bcryptjs (used at
src/middleware/auth.js line 517). -/
def bcryptHash (s : String) (cost : Nat) : PasswordValue :=
  PasswordValue.hashed cost s

/-- Models bcrypt.compare(attempt, stored): succeeds exactly when the stored
value is a bcrypt hash of the attempt (src/middleware/auth.js line 546). -/
def bcryptCompare (attempt : String) (stored : PasswordValue) : Bool :=
  match stored with
  | PasswordValue.hashed _ s => s == attempt
  | PasswordValue.plain _ => false

/-- The User row of the relational store (src/models: the User model file is
referenced by models/index.js; its attributes are fixed by the register
handlers and the swagger schema in src/middleware/auth.js lines 17-65:
id, name, email, password, userType, organization, location, phone). -/
structure User where
  id : Nat
  name : String
  email : String
  password : PasswordValue
  userType : String
  organization : Option String
  location : Option String
  phone : Option String
deriving DecidableEq, Repr

/-- Modelled from the spec: src/models/user.js is not under src/ (only its
require in models/index.js and its callers are).  Per spec §4.3 the password
is persisted as a salted one-way hash with fixed work factor ("e.g. cost
10"), and §3 requires "password at rest is always a one-way hash, never
plaintext"; so the model's create hook hashes an incoming plaintext password
with cost 10 and leaves an already-hashed value as is. -/
def userCreateHook (p : PasswordValue) : PasswordValue :=
  match p with
  | PasswordValue.plain s => PasswordValue.hashed 10 s
  | h => h

/-- Modelled from the spec: user.checkPassword (called by the login handler
at src/middleware/auth.js line 275) lives in the missing src/models/user.js;
per spec §4.4 it verifies the attempt "against stored hash using the same
one-way comparison" as bcrypt. -/
def checkPassword (stored : PasswordValue) (attempt : String) : Bool :=
  bcryptCompare attempt stored

/-- The Listing status enum: src/models (listing model),
DataTypes.ENUM('available', 'claimed') with default 'available'.  The enum
admits exactly these two values. -/
inductive LStatus where
  | available
  | claimed
deriving DecidableEq, Repr

/-- The string stored for a status value (Sequelize stores the enum member
as its string). -/
def statusStr : LStatus → String
  | LStatus.available => "available"
  | LStatus.claimed => "claimed"

/-- The Listing row (src/models listing definition plus the columns used by
the handlers: userId set at creation, claimedBy set by the claim handler). -/
structure Listing where
  id : Nat
  foodType : String
  quantity : String
  description : Option String
  location : String
  status : LStatus
  userId : Nat
  claimedBy : Option Nat
deriving DecidableEq, Repr

/-- The shared datastore: the two tables plus the auto-increment counters. -/
structure DB where
  users : List User
  listings : List Listing
  nextUserId : Nat
  nextListingId : Nat
deriving DecidableEq, Repr

def DB.empty : DB := ⟨[], [], 1, 1⟩

/-- JS truthiness of an optional string request field: absent (undefined)
and the empty string are falsy, every other string is truthy. -/
def truthy : Option String → Bool
  | none => false
  | some s => s != ""

/-- A JSON field value in a serialized response object. -/
inductive JVal where
  | str (s : String)
  | num (n : Nat)
  | pw (p : PasswordValue)
  | null
deriving DecidableEq, Repr

/-- A serialized JSON object, as an association list of fields. -/
abbrev JObj := List (String × JVal)

def optJ : Option String → JVal
  | none => JVal.null
  | some s => JVal.str s

/-- Models sequelize's instance.toJSON() on a fully fetched User row: every
attribute, the password included. -/
def User.toJSON (u : User) : JObj :=
  [("id", JVal.num u.id), ("name", JVal.str u.name),
   ("email", JVal.str u.email), ("password", JVal.pw u.password),
   ("userType", JVal.str u.userType), ("organization", optJ u.organization),
   ("location", optJ u.location), ("phone", optJ u.phone)]

/-- Removing the password field from a response object.  This models both
`delete userResponse.password` (src/middleware/auth.js lines 202, 285, 339,
398) and `{ ...user.toJSON(), password: undefined }` (lines 528, 551; JSON
serialization drops keys whose value is undefined). -/
def stripPassword (o : JObj) : JObj :=
  o.filter (fun kv => kv.1 != "password")

/-- Whether a serialized object contains a field of the given name. -/
def hasField (o : JObj) (k : String) : Bool :=
  o.any (fun kv => kv.1 == k)

/-- The user attached to the request by the DB-lookup middleware: the row
fetched with `attributes: { exclude: ['password'] }`
(src/middleware/auth.js lines 601-603). -/
structure ReqUser where
  id : Nat
  name : String
  email : String
  userType : String
  organization : Option String
  location : Option String
  phone : Option String
deriving DecidableEq, Repr

def User.toReqUser (u : User) : ReqUser :=
  ⟨u.id, u.name, u.email, u.userType, u.organization, u.location, u.phone⟩

/-- toJSON() of a password-excluded instance: no password key at all. -/
def ReqUser.toJSON (r : ReqUser) : JObj :=
  [("id", JVal.num r.id), ("name", JVal.str r.name),
   ("email", JVal.str r.email), ("userType", JVal.str r.userType),
   ("organization", optJ r.organization), ("location", optJ r.location),
   ("phone", optJ r.phone)]

/-- A handler outcome: `ok status data` for a success response,
`err status message` for an error response. -/
inductive HResult (α : Type) where
  | ok (status : Nat) (data : α)
  | err (status : Nat) (msg : String)
deriving DecidableEq, Repr

/-- models.User.findOne({ where: { email } }). -/
def findByEmail (db : DB) (e : Option String) : Option User :=
  db.users.find? (fun u => some u.email == e)

/-- models.User.findByPk(id). -/
def findUser (db : DB) (uid : Nat) : Option User :=
  db.users.find? (fun u => u.id == uid)

/-! ## Registration and login (src/middleware/auth.js: two parallel
implementations, lines 166-296 and lines 507-555) -/

/-- The request body of POST /auth/register.  Absent fields are `none`. -/
structure RegisterBody where
  name : Option String
  email : Option String
  password : Option String
  userType : Option String
  organization : Option String
  location : Option String
  phone : Option String
deriving DecidableEq, Repr

/-- The required-field check of both register handlers:
`if (!name || !email || !password || !userType)` (lines 171, 510). -/
def reqFieldsOk (b : RegisterBody) : Bool :=
  truthy b.name && truthy b.email && truthy b.password && truthy b.userType

/-- The userType whitelist of the first register handler:
`['donor', 'receiver'].includes(userType)` (line 176). -/
def userTypeOk (b : RegisterBody) : Bool :=
  b.userType == some "donor" || b.userType == some "receiver"

/-- The row persisted by the first register handler (lines 187-195): the
plaintext password is handed to models.User.create, where the model's
create hook (see userCreateHook) hashes it. -/
def mkUser1 (db : DB) (b : RegisterBody) : User :=
  { id := db.nextUserId, name := b.name.getD "", email := b.email.getD "",
    password := userCreateHook (PasswordValue.plain (b.password.getD "")),
    userType := b.userType.getD "", organization := b.organization,
    location := b.location, phone := b.phone }

/-- The row persisted by the second register handler (lines 517-526):
bcrypt.hash(password, 10) is computed first and the hash is handed to
models.User.create. -/
def mkUser2 (db : DB) (b : RegisterBody) : User :=
  { id := db.nextUserId, name := b.name.getD "", email := b.email.getD "",
    password := userCreateHook (bcryptHash (b.password.getD "") 10),
    userType := b.userType.getD "", organization := b.organization,
    location := b.location, phone := b.phone }

/-- First register handler, src/middleware/auth.js lines 166-213.  The
source's early `return res.status(400)` guards are written here as the
positive branches of the same conditions.  On success the response user view
is toJSON() with the password key deleted (lines 201-202). -/
def register1 (db : DB) (b : RegisterBody) : HResult JObj × DB :=
  if reqFieldsOk b then
    if userTypeOk b then
      match findByEmail db b.email with
      | some _ => (HResult.err 400 "User already exists with this email", db)
      | none =>
        (HResult.ok 201 (stripPassword (mkUser1 db b).toJSON),
         { db with users := db.users ++ [mkUser1 db b],
                   nextUserId := db.nextUserId + 1 })
    else (HResult.err 400 "userType must be either \"donor\" or \"receiver\"", db)
  else (HResult.err 400 "Name, email, password, and userType are required", db)

/-- Second register handler, src/middleware/auth.js lines 507-533.  It has
no userType whitelist; the duplicate-email branch answers 409.  On success
the response user view is `{ ...user.toJSON(), password: undefined }`
(line 528), whose serialization drops the password key. -/
def register2 (db : DB) (b : RegisterBody) : HResult JObj × DB :=
  if reqFieldsOk b then
    match findByEmail db b.email with
    | some _ => (HResult.err 409 "User already exists", db)
    | none =>
      (HResult.ok 201 (stripPassword (mkUser2 db b).toJSON),
       { db with users := db.users ++ [mkUser2 db b],
                 nextUserId := db.nextUserId + 1 })
  else (HResult.err 400 "Missing required fields", db)

/-- First login handler, src/middleware/auth.js lines 259-296.  Reads only,
so it returns no new state. -/
def login1 (db : DB) (email pw : Option String) : HResult JObj :=
  if truthy email && truthy pw then
    match findByEmail db email with
    | none => HResult.err 400 "Invalid email or password"
    | some u =>
      if checkPassword u.password (pw.getD "") then
        HResult.ok 200 (stripPassword u.toJSON)
      else HResult.err 400 "Invalid email or password"
  else HResult.err 400 "Email and password are required"

/-- Second login handler, src/middleware/auth.js lines 536-555: same shape
with 401 responses and bcrypt.compare against the stored hash. -/
def login2 (db : DB) (email pw : Option String) : HResult JObj :=
  if truthy email && truthy pw then
    match findByEmail db email with
    | none => HResult.err 401 "Invalid credentials"
    | some u =>
      if bcryptCompare (pw.getD "") u.password then
        HResult.ok 200 (stripPassword u.toJSON)
      else HResult.err 401 "Invalid credentials"
  else HResult.err 400 "Missing email or password"

/-! ## Tokens and the two auth middlewares -/

/-- The payload jwt.sign embeds: always the user id; the second
implementation also embeds userType (lines 198, 281 vs 527, 550). -/
structure Payload where
  id : Nat
  userType : Option String
deriving DecidableEq, Repr

/-- The outcome of jwt.verify(token, JWT_SECRET) on a nonempty token:
the decoded payload, or the error jsonwebtoken throws. -/
inductive TokenVerify where
  | ok (p : Payload)
  | expired
  | malformed
  | notBefore
deriving DecidableEq, Repr

/-- The Authorization header of an incoming request, reduced to the cases
the middlewares distinguish: no header at all; a header without the
"Bearer " prefix (such a raw string is not a signed token, so jwt.verify
rejects it as malformed); a "Bearer " header whose token is empty; and a
"Bearer " header carrying a token with its verification outcome. -/
inductive TokenInput where
  | noHeader
  | badFormat
  | emptyTok
  | bearer (v : TokenVerify)
deriving DecidableEq, Repr

/-- The outcome of a middleware: reject with a status and message, or call
next() with a user attached to the request. -/
inductive AuthOutcome (α : Type) where
  | reject (status : Nat) (msg : String)
  | proceed (u : α)
deriving DecidableEq, Repr

/-- Whether a middleware outcome is a 401 rejection. -/
def AuthOutcome.isUnauthenticated {α : Type} : AuthOutcome α → Bool
  | AuthOutcome.reject s _ => s == 401
  | AuthOutcome.proceed _ => false

/-- The simple middleware, src/middleware/auth.js lines 413-425: it strips
the "Bearer " prefix, verifies the token, and on success attaches the raw
decoded payload to req.user — it performs no database lookup.  A header
without the Bearer prefix is passed whole to jwt.verify and rejected as
malformed; a "Bearer " header with an empty token is falsy, so the
no-token branch answers. -/
def simpleAuth (t : TokenInput) : AuthOutcome Payload :=
  match t with
  | TokenInput.noHeader => AuthOutcome.reject 401 "No token provided"
  | TokenInput.emptyTok => AuthOutcome.reject 401 "No token provided"
  | TokenInput.badFormat => AuthOutcome.reject 401 "Invalid or expired token"
  | TokenInput.bearer v =>
    match v with
    | TokenVerify.ok p => AuthOutcome.proceed p
    | _ => AuthOutcome.reject 401 "Invalid or expired token"

/-- The DB-lookup middleware, src/middleware/auth.js lines 567-655: header
presence and Bearer-format checks, jwt.verify with per-error 401 responses,
then models.User.findByPk(decoded.id) excluding the password; a missing
user is a 401, a found user is attached to req.user. -/
def dbAuth (db : DB) (t : TokenInput) : AuthOutcome ReqUser :=
  match t with
  | TokenInput.noHeader =>
    AuthOutcome.reject 401 "Access denied. No authorization token provided."
  | TokenInput.badFormat =>
    AuthOutcome.reject 401 "Invalid token format. Please use Bearer authentication."
  | TokenInput.emptyTok =>
    AuthOutcome.reject 401 "Access denied. No token provided."
  | TokenInput.bearer v =>
    match v with
    | TokenVerify.expired =>
      AuthOutcome.reject 401 "Token has expired. Please login again."
    | TokenVerify.malformed =>
      AuthOutcome.reject 401 "Invalid token. Please provide a valid token."
    | TokenVerify.notBefore =>
      AuthOutcome.reject 401 "Token not active yet."
    | TokenVerify.ok p =>
      match findUser db p.id with
      | none => AuthOutcome.reject 401 "Token is invalid. User not found."
      | some u => AuthOutcome.proceed u.toReqUser

/-- GET /auth/verify, src/middleware/auth.js lines 323-355 (returning the
user view of the success response).  The catch handles TokenExpiredError
and JsonWebTokenError only, so a NotBeforeError reaches the generic 500. -/
def verifyTok (db : DB) (t : TokenInput) : HResult JObj :=
  match t with
  | TokenInput.noHeader => HResult.err 401 "No token provided"
  | TokenInput.emptyTok => HResult.err 401 "No token provided"
  | TokenInput.badFormat => HResult.err 401 "Invalid token"
  | TokenInput.bearer v =>
    match v with
    | TokenVerify.expired => HResult.err 401 "Token expired"
    | TokenVerify.malformed => HResult.err 401 "Invalid token"
    | TokenVerify.notBefore =>
      HResult.err 500 "Internal server error during token verification"
    | TokenVerify.ok p =>
      match findUser db p.id with
      | none => HResult.err 401 "Invalid token"
      | some u => HResult.ok 200 (stripPassword u.toJSON)

/-- GET /auth/me, src/middleware/auth.js lines 382-410: same flow as
/auth/verify with its own messages. -/
def meTok (db : DB) (t : TokenInput) : HResult JObj :=
  match t with
  | TokenInput.noHeader => HResult.err 401 "No token provided"
  | TokenInput.emptyTok => HResult.err 401 "No token provided"
  | TokenInput.badFormat => HResult.err 401 "Invalid token"
  | TokenInput.bearer v =>
    match v with
    | TokenVerify.expired => HResult.err 401 "Token expired"
    | TokenVerify.malformed => HResult.err 401 "Invalid token"
    | TokenVerify.notBefore => HResult.err 500 "Internal server error"
    | TokenVerify.ok p =>
      match findUser db p.id with
      | none => HResult.err 401 "Invalid token"
      | some u => HResult.ok 200 (stripPassword u.toJSON)

/-! ## Listing handlers (src/routes/listings.js) -/

/-- GET /listings, src/routes/listings.js lines 59-80: all listings with
status 'available'.  (The donor include annotates each row with the donor's
id, name, organization and location; the association is declared in the
missing user model file, and the annotation does not alter which listings
are returned, which is what the claims are about.) -/
def browseListings (db : DB) : HResult (List Listing) :=
  HResult.ok 200 (db.listings.filter (fun l => l.status == LStatus.available))

/-- The request body of POST /listings.  Absent fields are `none`. -/
structure ListingBody where
  foodType : Option String
  quantity : Option String
  description : Option String
  location : Option String
deriving DecidableEq, Repr

/-- POST /listings, src/routes/listings.js lines 110-138.  The handler runs
behind the auth middleware; `uid` and `userType` are req.user's id and
userType.  The role gate answers 403 for any non-donor.
models.Listing.create enforces allowNull: false on foodType, quantity and
location, so an absent field raises a Sequelize validation error inside the
try block, and the handler's catch maps every error to a 500
"Error creating listing" response (lines 132-137).  Status defaults to
'available' and claimedBy starts null. -/
def createListing (db : DB) (uid : Nat) (userType : String) (b : ListingBody)
    : HResult Listing × DB :=
  if userType != "donor" then
    (HResult.err 403 "Only donors can create listings", db)
  else
    match b.foodType, b.quantity, b.location with
    | some ft, some qt, some loc =>
      let l : Listing :=
        { id := db.nextListingId, foodType := ft, quantity := qt,
          description := b.description, location := loc,
          status := LStatus.available, userId := uid, claimedBy := none }
      (HResult.ok 201 l,
       { db with listings := db.listings ++ [l],
                 nextListingId := db.nextListingId + 1 })
    | _, _, _ => (HResult.err 500 "Error creating listing", db)

/-- PATCH /listings/:id/claim, src/routes/listings.js lines 159-190.  After
the receiver role gate and the findByPk lookup, the handler assigns
status = 'claimed' and claimedBy = req.user.id unconditionally — it never
reads the current status — and saves the row. -/
def claimListing (db : DB) (uid : Nat) (userType : String) (lid : Nat)
    : HResult Listing × DB :=
  if userType != "receiver" then
    (HResult.err 403 "Only receivers can claim listings", db)
  else
    match db.listings.find? (fun l => l.id == lid) with
    | none => (HResult.err 404 "Listing not found", db)
    | some l =>
      let l2 : Listing := { l with status := LStatus.claimed, claimedBy := some uid }
      (HResult.ok 200 l2,
       { db with listings := db.listings.map (fun x => if x.id == lid then l2 else x) })

/-- GET /listings/search, src/routes/listings.js lines 207-235.  For a
falsy q the whereClause stays { status: 'available' } and the handler
returns the browse result.  For a truthy q, line 213 evaluates
`models.Sequelize.Op.iLike`; src/models/index.js exports
`models = { Listing, User }`, so `models.Sequelize` is undefined and the
property access throws a TypeError inside the try block, which the catch
maps to a 500 "Error searching listings" response (lines 229-234). -/
def searchListings (db : DB) (q : Option String) : HResult (List Listing) :=
  if truthy q then HResult.err 500 "Error searching listings"
  else browseListings db

/-! ## Profile handlers (the profile routes source file) -/

/-- GET /profile: req.user is the password-excluded row attached by the
DB-lookup middleware; the handler spreads its toJSON() and deletes the
(already absent) password key. -/
def profileGet (r : ReqUser) : HResult JObj :=
  HResult.ok 200 (stripPassword r.toJSON)

/-- The request body of PUT /profile.  Absent fields are `none`. -/
structure ProfileBody where
  name : Option String
  organization : Option String
  location : Option String
  phone : Option String
deriving DecidableEq, Repr

/-- JS `input || old` on a required string column: a falsy input (absent or
empty string) falls back to the stored value. -/
def jsOrStr (v : Option String) (old : String) : String :=
  match v with
  | some s => if s == "" then old else s
  | none => old

/-- JS `input || old` on an optional string column. -/
def jsOrOpt (v : Option String) (old : Option String) : Option String :=
  if truthy v then v else old

/-- The row update performed by PUT /profile: only name, organization,
location and phone are assigned, each with the `input || stored` fallback;
every other column (id, email, password, userType) is untouched. -/
def updUser (u : User) (b : ProfileBody) : User :=
  { u with name := jsOrStr b.name u.name,
           organization := jsOrOpt b.organization u.organization,
           location := jsOrOpt b.location u.location,
           phone := jsOrOpt b.phone u.phone }

/-- PUT /profile: req.user.update({...}) persists the four assigned fields
of the authenticated user's row and answers with the password-stripped
updated view.  `uid` is req.user.id; the `none` branch is unreachable
behind the DB-lookup middleware, which only attaches existing rows. -/
def profileUpdate (db : DB) (uid : Nat) (b : ProfileBody) : HResult JObj × DB :=
  match findUser db uid with
  | none => (HResult.err 500 "Authenticated user missing from store", db)
  | some u =>
    (HResult.ok 200 (stripPassword (updUser u b).toReqUser.toJSON),
     { db with users := db.users.map (fun v => if v.id == uid then updUser u b else v) })

/-- JS parseInt(s) || 0 as used by the stats reducers: the integer value of
the longest numeric prefix (after optional whitespace and sign), and 0 when
there is none (parseInt returns NaN, which `|| 0` replaces). -/
def parseIntOrZero (s : String) : Int :=
  let cs := s.data.dropWhile (fun c => c == ' ')
  let signed : Bool × List Char :=
    match cs with
    | '-' :: rest => (true, rest)
    | '+' :: rest => (false, rest)
    | _ => (false, cs)
  let ds := signed.2.takeWhile Char.isDigit
  if ds.isEmpty then 0
  else
    let n : Nat := ds.foldl (fun a c => a * 10 + (c.toNat - 48)) 0
    if signed.1 then -(n : Int) else (n : Int)

/-- The donor branch of GET /profile/stats: reductions over the donor's
own listings, comparing each row's stored status string against
'available', 'claimed' and 'completed'. -/
structure DonorStats where
  totalListings : Nat
  availableListings : Nat
  claimedListings : Nat
  completedListings : Nat
  totalDonations : Int
deriving DecidableEq, Repr

def donorStats (db : DB) (uid : Nat) : DonorStats :=
  let ls := db.listings.filter (fun l => l.userId == uid)
  { totalListings := ls.length,
    availableListings := (ls.filter (fun l => statusStr l.status == "available")).length,
    claimedListings := (ls.filter (fun l => statusStr l.status == "claimed")).length,
    completedListings := (ls.filter (fun l => statusStr l.status == "completed")).length,
    totalDonations := ls.foldl (fun t l => t + parseIntOrZero l.quantity) 0 }

/-- The receiver branch of GET /profile/stats: the same reductions over the
listings the receiver has claimed. -/
structure ReceiverStats where
  totalClaims : Nat
  activeClaims : Nat
  completedClaims : Nat
  totalReceived : Int
deriving DecidableEq, Repr

def receiverStats (db : DB) (uid : Nat) : ReceiverStats :=
  let ls := db.listings.filter (fun l => l.claimedBy == some uid)
  { totalClaims := ls.length,
    activeClaims := (ls.filter (fun l => statusStr l.status == "claimed")).length,
    completedClaims := (ls.filter (fun l => statusStr l.status == "completed")).length,
    totalReceived := ls.foldl (fun t l => t + parseIntOrZero l.quantity) 0 }

/-! ## Concrete fixtures -/

/-- A donor row. -/
def uA : User :=
  ⟨1, "Alice", "alice@example.com", PasswordValue.hashed 10 "pw1", "donor",
   some "Fresh Farms", some "Cape Town", some "+27 111"⟩

/-- A receiver row. -/
def uB : User :=
  ⟨2, "Bob", "bob@example.com", PasswordValue.hashed 10 "pw2", "receiver",
   some "Hope Kitchen", some "Durban", none⟩

/-- A second receiver row. -/
def uC : User :=
  ⟨3, "Cara", "cara@example.com", PasswordValue.hashed 10 "pw3", "receiver",
   none, none, none⟩

/-- An available listing owned by the donor uA. -/
def lBread : Listing :=
  ⟨1, "Bread", "5 kg", none, "Cape Town", LStatus.available, 1, none⟩

/-- The same listing after uB's claim. -/
def lClaimed : Listing :=
  ⟨1, "Bread", "5 kg", none, "Cape Town", LStatus.claimed, 1, some 2⟩

/-- A store holding the donor and one available listing. -/
def dbBread : DB := ⟨[uA], [lBread], 2, 2⟩

/-- A store where uB has already claimed the listing and uC is a second
receiver. -/
def dbClaimed : DB := ⟨[uA, uB, uC], [lClaimed], 4, 2⟩

/-- A valid registration body for a donor. -/
def bReg : RegisterBody :=
  ⟨some "Alice", some "alice@example.com", some "secret1", some "donor",
   some "Fresh Farms", some "Cape Town", none⟩

/-- A valid registration body reusing the same email. -/
def bRegB : RegisterBody :=
  ⟨some "Bob", some "alice@example.com", some "secret2", some "receiver",
   none, none, none⟩

/-! ## Shared lemmas -/

/-- Stripping the password key leaves no password field behind. -/
theorem hasField_stripPassword (o : JObj) :
    hasField (stripPassword o) "password" = false := by
  induction o with
  | nil => rfl
  | cons kv t ih =>
    by_cases h : kv.1 = "password"
    · simp only [stripPassword, hasField, List.filter_cons] at ih ⊢
      simp [h, ih]
    · simp only [stripPassword, hasField, List.filter_cons] at ih ⊢
      simp [h, ih]

/-- find? over an append whose first part has no hit. -/
theorem find?_append_none {α : Type} (l1 l2 : List α) (p : α → Bool)
    (h : l1.find? p = none) : (l1 ++ l2).find? p = l2.find? p := by
  induction l1 with
  | nil => rfl
  | cons a t ih =>
    cases hpa : p a with
    | true => simp [List.find?_cons_of_pos, hpa] at h
    | false =>
      rw [List.find?_cons_of_neg _ (by simp [hpa])] at h
      rw [List.cons_append, List.find?_cons_of_neg _ (by simp [hpa])]
      exact ih h

/-- No listing row ever carries the status string 'completed': the enum of
the listing model has only 'available' and 'claimed'. -/
theorem filter_completed_nil (ls : List Listing) :
    ls.filter (fun l => statusStr l.status == "completed") = [] := by
  induction ls with
  | nil => rfl
  | cons l t ih =>
    have h : (statusStr l.status == "completed") = false := by
      cases l.status <;> rfl
    simp [List.filter_cons, h, ih]

/-! ## Claim theorems -/

/-- C1: the claim says a claim request on a listing whose status is already
"claimed" fails with Conflict leaving status and claimant unchanged, and
that of two claims on an available listing exactly one succeeds.  The code
has no status precondition: at the concrete store dbClaimed, whose only
listing is already claimed by receiver 2, a claim by receiver 3 succeeds
with 200 and silently overwrites the claimant, so a second claim also
succeeds and the stored claimant is the latest caller, not the first. -/
theorem claim_handler_overwrites_claimed_listing :
    lClaimed.status = LStatus.claimed ∧ lClaimed.claimedBy = some 2 ∧
    claimListing dbClaimed 3 "receiver" 1 =
      (HResult.ok 200 { lClaimed with claimedBy := some 3 },
       { dbClaimed with listings := [{ lClaimed with claimedBy := some 3 }] }) ∧
    ({ lClaimed with claimedBy := some 3 } : Listing).claimedBy = some 3 := by
  refine ⟨rfl, rfl, ?_, rfl⟩
  rfl

/-- C2 counterexample: the simple middleware never looks the user up.  With
an empty store and a token that verifies with embedded id 1, the claim
demands an Unauthenticated rejection (no such User), but the middleware
proceeds to the handler with the raw payload attached. -/
theorem simple_auth_proceeds_without_user :
    findUser DB.empty 1 = none ∧
    simpleAuth (TokenInput.bearer (TokenVerify.ok ⟨1, none⟩)) =
      AuthOutcome.proceed ⟨1, none⟩ ∧
    (simpleAuth (TokenInput.bearer (TokenVerify.ok ⟨1, none⟩))).isUnauthenticated
      = false :=
  ⟨rfl, rfl, rfl⟩

/-- C2 amended: the DB-lookup middleware behaves as the claim states —
on a verified token it looks the User up by the embedded id, answers 401
when no such User exists, attaches the resolved user (fetched with the
password attribute excluded) on success, and answers 401 for a missing,
malformed or expired token before any handler runs.  The simple middleware
also answers 401 for missing/malformed/expired tokens, but performs no user
lookup: every verified token proceeds with the raw decoded payload
attached. -/
theorem auth_gates_amended :
    (∀ (db : DB) (p : Payload) (u : User), findUser db p.id = some u →
      dbAuth db (TokenInput.bearer (TokenVerify.ok p)) =
        AuthOutcome.proceed u.toReqUser) ∧
    (∀ (db : DB) (p : Payload), findUser db p.id = none →
      dbAuth db (TokenInput.bearer (TokenVerify.ok p)) =
        AuthOutcome.reject 401 "Token is invalid. User not found.") ∧
    (∀ r : ReqUser, hasField r.toJSON "password" = false) ∧
    (∀ db : DB, (dbAuth db TokenInput.noHeader).isUnauthenticated = true) ∧
    (∀ db : DB, (dbAuth db TokenInput.badFormat).isUnauthenticated = true) ∧
    (∀ db : DB, (dbAuth db TokenInput.emptyTok).isUnauthenticated = true) ∧
    (∀ db : DB,
      (dbAuth db (TokenInput.bearer TokenVerify.expired)).isUnauthenticated = true) ∧
    (∀ db : DB,
      (dbAuth db (TokenInput.bearer TokenVerify.malformed)).isUnauthenticated = true) ∧
    (∀ db : DB,
      (dbAuth db (TokenInput.bearer TokenVerify.notBefore)).isUnauthenticated = true) ∧
    (∀ p : Payload,
      simpleAuth (TokenInput.bearer (TokenVerify.ok p)) = AuthOutcome.proceed p) ∧
    (simpleAuth TokenInput.noHeader).isUnauthenticated = true ∧
    (simpleAuth TokenInput.emptyTok).isUnauthenticated = true ∧
    (simpleAuth TokenInput.badFormat).isUnauthenticated = true ∧
    (simpleAuth (TokenInput.bearer TokenVerify.expired)).isUnauthenticated = true ∧
    (simpleAuth (TokenInput.bearer TokenVerify.malformed)).isUnauthenticated = true := by
  refine ⟨?_, ?_, ?_, fun _ => rfl, fun _ => rfl, fun _ => rfl, fun _ => rfl,
    fun _ => rfl, fun _ => rfl, fun _ => rfl, rfl, rfl, rfl, rfl, rfl⟩
  · intro db p u h
    simp [dbAuth, h]
  · intro db p h
    simp [dbAuth, h]
  · intro r
    rfl

/-- C2 witness: at the concrete store dbBread, a verified token for id 1
makes the DB-lookup middleware attach the password-stripped user uA. -/
theorem auth_gates_amended_witness :
    dbAuth dbBread (TokenInput.bearer (TokenVerify.ok ⟨1, some "donor"⟩)) =
      AuthOutcome.proceed uA.toReqUser :=
  auth_gates_amended.1 dbBread ⟨1, some "donor"⟩ uA rfl

/-- C3: with any store, any caller id and any target, the claim handler
answers 403 and leaves the store unchanged when the authenticated caller's
userType is "donor", and the create handler answers 403 and leaves the
store unchanged when it is "receiver". -/
theorem role_gates_forbidden :
    (∀ (db : DB) (uid lid : Nat),
      claimListing db uid "donor" lid =
        (HResult.err 403 "Only receivers can claim listings", db)) ∧
    (∀ (db : DB) (uid : Nat) (b : ListingBody),
      createListing db uid "receiver" b =
        (HResult.err 403 "Only donors can create listings", db)) :=
  ⟨fun _ _ _ => rfl, fun _ _ _ => rfl⟩

/-- C7: the claim says a non-empty query returns the case-insensitive
substring matches among available listings.  The handler instead evaluates
models.Sequelize.Op.iLike for every truthy q, and models/index.js exports
no Sequelize member, so the access throws and the catch answers 500: at the
store dbBread holding the available listing with foodType "Bread", the
query "Bread" yields the 500 error response and no data.  An empty or
absent query does return the browse result, as claimed. -/
theorem search_crashes_on_nonempty_query :
    lBread.status = LStatus.available ∧ lBread.foodType = "Bread" ∧
    searchListings dbBread (some "Bread") =
      HResult.err 500 "Error searching listings" ∧
    searchListings dbBread (some "") = browseListings dbBread ∧
    searchListings dbBread none = browseListings dbBread ∧
    browseListings dbBread = HResult.ok 200 [lBread] := by
  refine ⟨rfl, rfl, rfl, rfl, rfl, ?_⟩
  rfl

/-- C9: the claim says a create request by a donor lacking a required field
is answered with InvalidInput 400.  The handler's catch-all maps the
store-level validation failure to a generic 500 instead (no listing is
persisted): each required field, when absent, produces the 500 response and
an unchanged store. -/
theorem create_missing_field_yields_500 :
    createListing DB.empty 1 "donor"
      { foodType := none, quantity := some "5 kg", description := none,
        location := some "Cape Town" } =
      (HResult.err 500 "Error creating listing", DB.empty) ∧
    createListing DB.empty 1 "donor"
      { foodType := some "Bread", quantity := none, description := none,
        location := some "Cape Town" } =
      (HResult.err 500 "Error creating listing", DB.empty) ∧
    createListing DB.empty 1 "donor"
      { foodType := some "Bread", quantity := some "5 kg", description := none,
        location := none } =
      (HResult.err 500 "Error creating listing", DB.empty) :=
  ⟨rfl, rfl, rfl⟩

/-- C10: the listing status enum admits only 'available' and 'claimed', no
handler writes any other value (create writes 'available', claim writes
'claimed'), and therefore the completed filters of both stats views are
empty, so completedListings and completedClaims are always 0. -/
theorem completed_status_unreachable :
    (∀ s : LStatus, statusStr s = "available" ∨ statusStr s = "claimed") ∧
    (∀ ls : List Listing,
      ls.filter (fun l => statusStr l.status == "completed") = []) ∧
    (∀ (db : DB) (uid : Nat) (t : String) (b : ListingBody) (st : Nat)
       (l : Listing) (db2 : DB),
      createListing db uid t b = (HResult.ok st l, db2) →
        l.status = LStatus.available) ∧
    (∀ (db : DB) (uid : Nat) (t : String) (lid st : Nat) (l : Listing) (db2 : DB),
      claimListing db uid t lid = (HResult.ok st l, db2) →
        l.status = LStatus.claimed) ∧
    (∀ (db : DB) (uid : Nat), (donorStats db uid).completedListings = 0) ∧
    (∀ (db : DB) (uid : Nat), (receiverStats db uid).completedClaims = 0) := by
  refine ⟨?_, filter_completed_nil, ?_, ?_, ?_, ?_⟩
  · intro s
    cases s
    · exact Or.inl rfl
    · exact Or.inr rfl
  · intro db uid t b st l db2 h
    unfold createListing at h
    split at h
    · simp at h
    · split at h
      · rw [Prod.mk.injEq] at h
        injection h.1 with _ hl
        rw [← hl]
      · simp at h
  · intro db uid t lid st l db2 h
    unfold claimListing at h
    split at h
    · simp at h
    · split at h
      · simp at h
      · rw [Prod.mk.injEq] at h
        injection h.1 with _ hl
        rw [← hl]
  · intro db uid
    have h := filter_completed_nil (db.listings.filter (fun l => l.userId == uid))
    simp [donorStats, h]
  · intro db uid
    have h := filter_completed_nil
      (db.listings.filter (fun l => l.claimedBy == some uid))
    simp [receiverStats, h]

/-- C10 witness: the status written by a concrete successful claim is
'claimed'. -/
theorem completed_status_unreachable_witness :
    lClaimed.status = LStatus.claimed :=
  completed_status_unreachable.2.2.2.1 dbBread 2 "receiver" 1 200 lClaimed
    { dbBread with listings := [lClaimed] } rfl

/-- C4: a successful registration, through either register handler, appends
exactly the constructed user row, whose stored password is the bcrypt hash
(cost 10) of the submitted password and not the plaintext; and no other
operation writes the password column: the profile update preserves it and
the listing handlers never touch the user table. -/
theorem register_stores_hashed_password (db : DB) (b : RegisterBody)
    (h1 : reqFieldsOk b = true) (h2 : userTypeOk b = true)
    (h3 : findByEmail db b.email = none) :
    (register1 db b).2.users = db.users ++ [mkUser1 db b] ∧
    (mkUser1 db b).password = PasswordValue.hashed 10 (b.password.getD "") ∧
    (mkUser1 db b).password ≠ PasswordValue.plain (b.password.getD "") ∧
    (register2 db b).2.users = db.users ++ [mkUser2 db b] ∧
    (mkUser2 db b).password = PasswordValue.hashed 10 (b.password.getD "") ∧
    (mkUser2 db b).password ≠ PasswordValue.plain (b.password.getD "") ∧
    (∀ (u : User) (c : ProfileBody), (updUser u c).password = u.password) ∧
    (∀ (dbx : DB) (uid : Nat) (t : String) (bl : ListingBody),
      (createListing dbx uid t bl).2.users = dbx.users) ∧
    (∀ (dbx : DB) (uid : Nat) (t : String) (lid : Nat),
      (claimListing dbx uid t lid).2.users = dbx.users) := by
  refine ⟨?_, rfl, ?_, ?_, rfl, ?_, fun _ _ => rfl, ?_, ?_⟩
  · simp [register1, h1, h2, h3]
  · simp [mkUser1, userCreateHook]
  · simp [register2, h1, h3]
  · simp [mkUser2, userCreateHook, bcryptHash]
  · intro dbx uid t bl
    unfold createListing
    split
    · rfl
    · split <;> rfl
  · intro dbx uid t lid
    unfold claimListing
    split
    · rfl
    · split <;> rfl

/-- C4 witness: a concrete registration on the empty store persists a user
whose stored password is the cost-10 hash of "secret1". -/
theorem register_stores_hashed_password_witness :
    (register1 DB.empty bReg).2.users = DB.empty.users ++ [mkUser1 DB.empty bReg] ∧
    (mkUser1 DB.empty bReg).password = PasswordValue.hashed 10 "secret1" ∧
    (mkUser2 DB.empty bReg).password ≠ PasswordValue.plain "secret1" := by
  have h := register_stores_hashed_password DB.empty bReg rfl rfl rfl
  exact ⟨h.1, h.2.1, h.2.2.2.2.2.1⟩

/-- C5: every success response carrying a user view — both register
handlers, both login handlers, token verification, current-user, profile
read and profile update — returns an object with no password field. -/
theorem responses_never_contain_password :
    (∀ (db db2 : DB) (b : RegisterBody) (v : JObj),
      register1 db b = (HResult.ok 201 v, db2) → hasField v "password" = false) ∧
    (∀ (db db2 : DB) (b : RegisterBody) (v : JObj),
      register2 db b = (HResult.ok 201 v, db2) → hasField v "password" = false) ∧
    (∀ (db : DB) (e p : Option String) (v : JObj),
      login1 db e p = HResult.ok 200 v → hasField v "password" = false) ∧
    (∀ (db : DB) (e p : Option String) (v : JObj),
      login2 db e p = HResult.ok 200 v → hasField v "password" = false) ∧
    (∀ (db : DB) (t : TokenInput) (v : JObj),
      verifyTok db t = HResult.ok 200 v → hasField v "password" = false) ∧
    (∀ (db : DB) (t : TokenInput) (v : JObj),
      meTok db t = HResult.ok 200 v → hasField v "password" = false) ∧
    (∀ (r : ReqUser) (v : JObj),
      profileGet r = HResult.ok 200 v → hasField v "password" = false) ∧
    (∀ (db db2 : DB) (uid : Nat) (b : ProfileBody) (v : JObj),
      profileUpdate db uid b = (HResult.ok 200 v, db2) →
        hasField v "password" = false) := by
  refine ⟨?_, ?_, ?_, ?_, ?_, ?_, ?_, ?_⟩
  · intro db db2 b v h
    unfold register1 at h
    repeat' split at h
    all_goals first
      | (injection h with ha hb
         exact hb ▸ hasField_stripPassword _)
      | (injection h with ha hb
         injection ha with hc hd
         exact hd ▸ hasField_stripPassword _)
      | (injection h with ha hb
         injection ha)
  · intro db db2 b v h
    unfold register2 at h
    repeat' split at h
    all_goals first
      | (injection h with ha hb
         exact hb ▸ hasField_stripPassword _)
      | (injection h with ha hb
         injection ha with hc hd
         exact hd ▸ hasField_stripPassword _)
      | (injection h with ha hb
         injection ha)
  · intro db e p v h
    unfold login1 at h
    repeat' split at h
    all_goals first
      | (injection h with ha hb
         exact hb ▸ hasField_stripPassword _)
      | injection h
  · intro db e p v h
    unfold login2 at h
    repeat' split at h
    all_goals first
      | (injection h with ha hb
         exact hb ▸ hasField_stripPassword _)
      | injection h
  · intro db t v h
    unfold verifyTok at h
    repeat' split at h
    all_goals first
      | (injection h with ha hb
         exact hb ▸ hasField_stripPassword _)
      | injection h
  · intro db t v h
    unfold meTok at h
    repeat' split at h
    all_goals first
      | (injection h with ha hb
         exact hb ▸ hasField_stripPassword _)
      | injection h
  · intro r v h
    unfold profileGet at h
    injection h with ha hb
    exact hb ▸ hasField_stripPassword _
  · intro db db2 uid b v h
    unfold profileUpdate at h
    repeat' split at h
    all_goals first
      | (injection h with ha hb
         injection ha with hc hd
         exact hd ▸ hasField_stripPassword _)
      | (injection h with ha hb
         injection ha)

/-- C5 witness: the user view of a concrete successful login carries no
password field. -/
theorem responses_never_contain_password_witness :
    hasField (stripPassword uA.toJSON) "password" = false :=
  responses_never_contain_password.2.2.1 dbBread (some "alice@example.com")
    (some "pw1") (stripPassword uA.toJSON) rfl

/-- C6: for two valid registration bodies sharing the same email against a
store with no user at that email, the first call succeeds with 201 and the
store then holds exactly one user with that email, and a second call on
the resulting store fails with the duplicate-user conflict response (400
"User already exists with this email" in the first implementation, 409
"User already exists" in the second) leaving the store unchanged. -/
theorem duplicate_registration_conflict (db : DB) (b1 b2 : RegisterBody)
    (e : String)
    (h1 : reqFieldsOk b1 = true) (h2 : userTypeOk b1 = true)
    (h3 : findByEmail db b1.email = none)
    (h4 : reqFieldsOk b2 = true) (h5 : userTypeOk b2 = true)
    (he1 : b1.email = some e) (he2 : b2.email = some e) :
    (register1 db b1).1 = HResult.ok 201 (stripPassword (mkUser1 db b1).toJSON) ∧
    ((register1 db b1).2.users.filter (fun u => u.email == e)).length = 1 ∧
    register1 (register1 db b1).2 b2 =
      (HResult.err 400 "User already exists with this email",
       (register1 db b1).2) ∧
    (register2 db b1).1 = HResult.ok 201 (stripPassword (mkUser2 db b1).toJSON) ∧
    ((register2 db b1).2.users.filter (fun u => u.email == e)).length = 1 ∧
    register2 (register2 db b1).2 b2 =
      (HResult.err 409 "User already exists", (register2 db b1).2) := by
  have hfind : db.users.find? (fun u => some u.email == some e) = none := by
    rw [he1] at h3
    exact h3
  have hnil : db.users.filter (fun u => u.email == e) = [] := by
    rw [List.filter_eq_nil_iff]
    intro u hu
    have hne := List.find?_eq_none.mp hfind u hu
    simpa using hne
  have hreg1 : register1 db b1 =
      (HResult.ok 201 (stripPassword (mkUser1 db b1).toJSON),
       { db with users := db.users ++ [mkUser1 db b1],
                 nextUserId := db.nextUserId + 1 }) := by
    simp [register1, h1, h2, h3]
  have hreg2 : register2 db b1 =
      (HResult.ok 201 (stripPassword (mkUser2 db b1).toJSON),
       { db with users := db.users ++ [mkUser2 db b1],
                 nextUserId := db.nextUserId + 1 }) := by
    simp [register2, h1, h3]
  have hmail1 : (mkUser1 db b1).email = e := by
    simp [mkUser1, he1]
  have hmail2 : (mkUser2 db b1).email = e := by
    simp [mkUser2, he1]
  have hcount : ∀ u1 : User, u1.email = e →
      ((db.users ++ [u1]).filter (fun u => u.email == e)).length = 1 := by
    intro u1 hm
    rw [List.filter_append, hnil]
    simp [hm]
  have hdup : ∀ u1 : User, u1.email = e →
      (db.users ++ [u1]).find? (fun u => some u.email == b2.email) = some u1 := by
    intro u1 hm
    rw [he2, find?_append_none _ _ _ hfind]
    simp [hm]
  refine ⟨?_, ?_, ?_, ?_, ?_, ?_⟩
  · rw [hreg1]
  · rw [hreg1]
    exact hcount _ hmail1
  · rw [hreg1]
    have hf : findByEmail
        { db with users := db.users ++ [mkUser1 db b1],
                  nextUserId := db.nextUserId + 1 } b2.email =
        some (mkUser1 db b1) := hdup _ hmail1
    simp [register1, h4, h5, hf]
  · rw [hreg2]
  · rw [hreg2]
    exact hcount _ hmail2
  · rw [hreg2]
    have hf : findByEmail
        { db with users := db.users ++ [mkUser2 db b1],
                  nextUserId := db.nextUserId + 1 } b2.email =
        some (mkUser2 db b1) := hdup _ hmail2
    simp [register2, h4, hf]

/-- C6 witness: registering "alice@example.com" twice on the empty store —
the second call answers the duplicate conflict and exactly one user with
that email is persisted. -/
theorem duplicate_registration_conflict_witness :
    register1 (register1 DB.empty bReg).2 bRegB =
      (HResult.err 400 "User already exists with this email",
       (register1 DB.empty bReg).2) ∧
    ((register1 DB.empty bReg).2.users.filter
      (fun u => u.email == "alice@example.com")).length = 1 := by
  have h := duplicate_registration_conflict DB.empty bReg bRegB
    "alice@example.com" rfl rfl rfl rfl rfl rfl rfl
  exact ⟨h.2.2.1, h.2.1⟩

/-- C8: the profile update writes only name, organization, location and
phone; id, email, password and userType are unchanged; a falsy (absent or
empty-string) input leaves the stored field unchanged, and a truthy
location input sets location to exactly that value. -/
theorem profile_update_frame (db : DB) (uid : Nat) (b : ProfileBody)
    (u : User) (h : findUser db uid = some u) :
    profileUpdate db uid b =
      (HResult.ok 200 (stripPassword (updUser u b).toReqUser.toJSON),
       { db with users := db.users.map (fun v => if v.id == uid then updUser u b else v) }) ∧
    (updUser u b).id = u.id ∧
    (updUser u b).email = u.email ∧
    (updUser u b).password = u.password ∧
    (updUser u b).userType = u.userType ∧
    (b.name = none ∨ b.name = some "" → (updUser u b).name = u.name) ∧
    (b.organization = none ∨ b.organization = some "" →
      (updUser u b).organization = u.organization) ∧
    (b.location = none ∨ b.location = some "" →
      (updUser u b).location = u.location) ∧
    (b.phone = none ∨ b.phone = some "" → (updUser u b).phone = u.phone) ∧
    (∀ s : String, s ≠ "" → b.location = some s →
      (updUser u b).location = some s) := by
  refine ⟨?_, rfl, rfl, rfl, rfl, ?_, ?_, ?_, ?_, ?_⟩
  · simp [profileUpdate, h]
  · rintro (hb | hb) <;> simp [updUser, jsOrStr, hb]
  · rintro (hb | hb) <;> simp [updUser, jsOrOpt, truthy, hb]
  · rintro (hb | hb) <;> simp [updUser, jsOrOpt, truthy, hb]
  · rintro (hb | hb) <;> simp [updUser, jsOrOpt, truthy, hb]
  · intro s hs hb
    simp [updUser, jsOrOpt, truthy, hb, hs]

/-- C8 witness: updating uA's profile with only location "Durban" sets the
location and leaves name, organization, phone and password unchanged. -/
theorem profile_update_frame_witness :
    (updUser uA ⟨none, none, some "Durban", none⟩).location = some "Durban" ∧
    (updUser uA ⟨none, none, some "Durban", none⟩).name = uA.name ∧
    (updUser uA ⟨none, none, some "Durban", none⟩).organization = uA.organization ∧
    (updUser uA ⟨none, none, some "Durban", none⟩).phone = uA.phone ∧
    (updUser uA ⟨none, none, some "Durban", none⟩).password = uA.password := by
  have h := profile_update_frame dbBread 1 ⟨none, none, some "Durban", none⟩ uA rfl
  exact ⟨h.2.2.2.2.2.2.2.2.2 "Durban" (by decide) rfl,
         h.2.2.2.2.2.1 (Or.inl rfl),
         h.2.2.2.2.2.2.1 (Or.inl rfl),
         h.2.2.2.2.2.2.2.2.1 (Or.inl rfl),
         h.2.2.2.1⟩

end FoodBridge
